import Mathlib

/-!
Verification of the event-loop coordination and shutdown state machine of
the Verso (Yippee) browser shell, `src/verso.rs`.

The embedding models the per-tick driver `Verso::run` and its three phases
`handle_servo_messages`, `handle_winit_event`, `handle_servo_messages2`,
the wake bridge `Waker::wake`, the outbound helper `send_to_constellation`,
and (modelled from the spec where the repository file is absent) the native
event-loop driver and the Window Registry.

External collaborators (the `IOCompositor`, the per-window message handler
in `window.rs`) are modelled as oracles: arbitrary functions supplied per
tick, describing what the collaborator returned and how it mutated the
shutdown state it shares with the coordinator.  A tick additionally emits
an ordered trace of the actions it performed, so that ordering and
non-dispatch properties can be stated about the trace.
-/

/-- The `ShutdownState` from servo's compositor, shared with the coordinator. -/
inductive ShutdownState where
  | NotShuttingDown
  | ShuttingDown
  | FinishedShuttingDown
deriving DecidableEq, Repr

/-- The `Status` returned by `Verso::run` each tick. -/
inductive Status where
  | None
  | Shutdown
  | Animating
deriving DecidableEq, Repr

/-- Actions a tick performs, in execution order. -/
inductive Act (Msg : Type) where
  /-- the call to `compositor.receive_messages()`, recording its result -/
  | compositorRecv (got : Bool)
  /-- invocation of `window.handle_servo_message` on `m`; the Bool is its
  return value (whether it requested shutdown) -/
  | dispatch (m : Msg) (shutdownRequested : Bool)
  /-- message popped while `ShuttingDown`: silently dropped -/
  | dropShuttingDown (m : Msg)
  /-- message popped while `FinishedShuttingDown`: error logged, dropped -/
  | errorAfterShutdown (m : Msg)
  /-- the winit event was handled -/
  | winitHandled
  /-- call to `compositor.perform_updates()` -/
  | performUpdates
  /-- call to `compositor.maybe_start_shutting_down()` -/
  | maybeStartShuttingDown
deriving DecidableEq, Repr

/-- The winit `Event<()>` as far as `handle_winit_event` distinguishes it;
`W` is the payload of a `WindowEvent`. -/
inductive WinitEvent (W : Type) where
  | Suspended
  | Resumed
  | UserEvent
  | WindowEvent (e : W)
  | Other
deriving DecidableEq, Repr

/-- Per-tick behaviour of the external collaborators.

* `recv` models `compositor.receive_messages()`: from the current shutdown
  state it yields the returned Bool and the shutdown state after the call.
* `handler` models `window.handle_servo_message(..)`: for a message and the
  current shutdown state it yields the returned Bool (shutdown requested)
  and the shutdown state after the call (the handler gets `&mut compositor`).
* `winit` models `window.handle_winit_window_event(..)`, which also gets
  `&mut compositor` and may move the shutdown state.
* `performUpdates` and `maybeStart` model the two compositor calls of
  `handle_servo_messages2`.
* `animating` is the value `window.is_animating()` returns this tick. -/
structure Oracle (Msg W : Type) where
  recv : ShutdownState → Bool × ShutdownState
  handler : Msg → ShutdownState → Bool × ShutdownState
  winit : W → ShutdownState → ShutdownState
  performUpdates : ShutdownState → ShutdownState
  maybeStart : ShutdownState → ShutdownState
  animating : Bool

/-- The coordinator state a tick reads and writes: the compositor's
shutdown state, `self.status`, and the embedder message channel contents. -/
structure VersoState (Msg : Type) where
  st : ShutdownState
  status : Status
  queue : List Msg
deriving DecidableEq, Repr

/-- The embedder-drain loop of `handle_servo_messages`: `while let
Some(msg) = try_recv_embedder_msg()` pops every queued message; the match
on the current shutdown state decides whether the message is dispatched
(`NotShuttingDown`), silently ignored (`ShuttingDown`), or error-logged
(`FinishedShuttingDown`).  Returns the shutdown state, the status, and the
trace of drain actions. -/
def drainEmbedder {Msg W : Type} (O : Oracle Msg W) :
    List Msg → ShutdownState → Status → ShutdownState × Status × List (Act Msg)
  | [], st, status => (st, status, [])
  | m :: rest, st, status =>
    match st with
    | ShutdownState.NotShuttingDown =>
      let r := O.handler m st
      let status2 := if r.1 then Status.Shutdown else status
      let d := drainEmbedder O rest r.2 status2
      (d.1, d.2.1, Act.dispatch m r.1 :: d.2.2)
    | ShutdownState.ShuttingDown =>
      let d := drainEmbedder O rest st status
      (d.1, d.2.1, Act.dropShuttingDown m :: d.2.2)
    | ShutdownState.FinishedShuttingDown =>
      let d := drainEmbedder O rest st status
      (d.1, d.2.1, Act.errorAfterShutdown m :: d.2.2)

/-- Embedding of `Verso::handle_servo_messages`: call `compositor.receive_messages()`;
if it returned true, drain the embedder channel. -/
def handle_servo_messages {Msg W : Type} (O : Oracle Msg W)
    (s : VersoState Msg) : VersoState Msg × List (Act Msg) :=
  let r := O.recv s.st
  if r.1 then
    let d := drainEmbedder O s.queue r.2 s.status
    (⟨d.1, d.2.1, []⟩, Act.compositorRecv true :: d.2.2)
  else
    (⟨r.2, s.status, s.queue⟩, [Act.compositorRecv false])

/-- Embedding of `Verso::handle_winit_event`: `Suspended` sets the status to `None`;
a `WindowEvent` is forwarded to `window.handle_winit_window_event`, which
may mutate the compositor; other events only log. -/
def handle_winit_event {Msg W : Type} (O : Oracle Msg W)
    (ev : WinitEvent W) (s : VersoState Msg) : VersoState Msg :=
  match ev with
  | WinitEvent.Suspended => ⟨s.st, Status.None, s.queue⟩
  | WinitEvent.WindowEvent e => ⟨O.winit e s.st, s.status, s.queue⟩
  | _ => s

/-- Embedding of `Verso::handle_servo_messages2`: if the shutdown state is not
`FinishedShuttingDown` call `compositor.perform_updates()`, otherwise call
`compositor.maybe_start_shutting_down()`; then, unless the status is
already `Shutdown`, set it from `window.is_animating()`. -/
def handle_servo_messages2 {Msg W : Type} (O : Oracle Msg W)
    (s : VersoState Msg) : VersoState Msg × List (Act Msg) :=
  let p :=
    if s.st ≠ ShutdownState.FinishedShuttingDown then
      (O.performUpdates s.st, Act.performUpdates)
    else
      (O.maybeStart s.st, Act.maybeStartShuttingDown)
  let status2 :=
    if s.status = Status.Shutdown then s.status
    else if O.animating then Status.Animating
    else Status.None
  (⟨p.1, status2, s.queue⟩, [p.2])

/-- One tick of `Verso::run`: `handle_servo_messages`, then
`handle_winit_event`, then `handle_servo_messages2`; the returned `Status`
is the final `self.status` of the state.  Also returns the ordered action
trace of the tick. -/
def tick {Msg W : Type} (O : Oracle Msg W) (ev : WinitEvent W)
    (s : VersoState Msg) : VersoState Msg × List (Act Msg) :=
  let a := handle_servo_messages O s
  let b := handle_winit_event O ev a.1
  let c := handle_servo_messages2 O b
  (c.1, a.2 ++ [Act.winitHandled] ++ c.2)

/-- The messages a trace dispatched to the window handler. -/
def dispatchedOf {Msg : Type} (tr : List (Act Msg)) : List Msg :=
  tr.filterMap fun a =>
    match a with
    | Act.dispatch m _ => some m
    | _ => none

/-- The messages a trace removed from the embedder channel. -/
def drainedOf {Msg : Type} (tr : List (Act Msg)) : List Msg :=
  tr.filterMap fun a =>
    match a with
    | Act.dispatch m _ => some m
    | Act.dropShuttingDown m => some m
    | Act.errorAfterShutdown m => some m
    | _ => none

/-- The messages a trace error-logged as arriving after shutdown. -/
def erroredOf {Msg : Type} (tr : List (Act Msg)) : List Msg :=
  tr.filterMap fun a =>
    match a with
    | Act.errorAfterShutdown m => some m
    | _ => none

example :
    tick (⟨fun st => (true, st), fun _ st => (false, st), fun _ st => st,
        fun st => st, fun st => st, false⟩ : Oracle Nat Nat)
      WinitEvent.Resumed ⟨ShutdownState.ShuttingDown, Status.None, [0]⟩
    = (⟨ShutdownState.ShuttingDown, Status.None, []⟩,
       [Act.compositorRecv true, Act.dropShuttingDown 0,
        Act.winitHandled, Act.performUpdates]) := by decide

/-- Log entries `Waker::wake` can emit; the payload is the delivery error. -/
inductive WakeLog where
  | sendFailed (err : Nat)
deriving DecidableEq, Repr

/-- Embedding of `Waker::wake`: `sendResult` is the outcome of
`EventLoopProxy::send_event(())` (an error when the native loop has already
exited); on failure the error is logged, and the function returns the log
entries it emitted — it has no failure outcome of its own. -/
def wake (sendResult : Except Nat Unit) : List WakeLog :=
  match sendResult with
  | Except.error e => [WakeLog.sendFailed e]
  | Except.ok _ => []

/-- Embedding of `send_to_constellation`: record the variant name of the
command, perform the single send, and on failure log the variant name
together with the transport error.  Returns the number of send attempts
performed and the warnings logged; there is no error outcome for the
caller.  `V` is the type of variant names, `E` of transport errors. -/
def send_to_constellation {M V E : Type} (variant_name : M → V)
    (send : M → Except E Unit) (msg : M) : Nat × List (V × E) :=
  match send msg with
  | Except.error e => (1, [(variant_name msg, e)])
  | Except.ok _ => (1, [])

/-- Input to one iteration of the native loop: the per-tick oracle, the
winit event delivered, and the embedder messages that arrived on the
channel since the previous tick. -/
structure TickInput (Msg W : Type) where
  oracle : Oracle Msg W
  event : WinitEvent W
  arrivals : List Msg

/-- Iterate `Verso::run` over a sequence of tick inputs; arrivals are
appended to the embedder channel before each tick.  Returns the final
coordinator state and the tick traces in order. -/
def ticksRun {Msg W : Type} (s : VersoState Msg) :
    List (TickInput Msg W) → VersoState Msg × List (List (Act Msg))
  | [] => (s, [])
  | i :: is =>
    let r := tick i.oracle i.event ⟨s.st, s.status, s.queue ++ i.arrivals⟩
    let rest := ticksRun r.1 is
    (rest.1, r.2 :: rest.2)

/-- Terminality of `FinishedShuttingDown` for the compositor-side
transitions an oracle supplies (the spec: the shutdown state machine is
monotonic, so no compositor call leaves the terminal state). -/
def Oracle.Absorbing {Msg W : Type} (O : Oracle Msg W) : Prop :=
  (O.recv ShutdownState.FinishedShuttingDown).2 = ShutdownState.FinishedShuttingDown ∧
  (∀ e, O.winit e ShutdownState.FinishedShuttingDown = ShutdownState.FinishedShuttingDown) ∧
  O.maybeStart ShutdownState.FinishedShuttingDown = ShutdownState.FinishedShuttingDown

/-- Process-level state seen by the native event-loop driver: the
coordinator state plus whether the `Verso` value is still alive (not yet
consumed by `Verso::deinit(self)`), and counters of deinitializations and
native-loop exit requests. -/
structure Proc (Msg : Type) where
  st : ShutdownState
  status : Status
  queue : List Msg
  alive : Bool
  deinits : Nat
  exitRequests : Nat
deriving DecidableEq, Repr

/-- Modelled from the spec: the native event-loop driver (`main.rs`, which
is absent from `src/`; only `Verso::run` and `Verso::deinit` are in
`src/verso.rs`).  Spec 4.3 step 4 and 4.2: once the shutdown state is
`FinishedShuttingDown` the driver performs the one-time terminal
deinitialization — `Verso::deinit(self)` consumes the `Verso` by value, so
the driver holds it as an optional value that deinit takes — and requests
the native loop to exit.  A wake signal or native event arriving after
that still produces a driver iteration, but it finds no `Verso` to tick. -/
def driverStep {Msg W : Type} (p : Proc Msg) (i : TickInput Msg W) : Proc Msg :=
  if p.alive then
    if (tick i.oracle i.event ⟨p.st, p.status, p.queue ++ i.arrivals⟩).1.st =
        ShutdownState.FinishedShuttingDown then
      ⟨(tick i.oracle i.event ⟨p.st, p.status, p.queue ++ i.arrivals⟩).1.st,
       (tick i.oracle i.event ⟨p.st, p.status, p.queue ++ i.arrivals⟩).1.status,
       (tick i.oracle i.event ⟨p.st, p.status, p.queue ++ i.arrivals⟩).1.queue,
       false, p.deinits + 1, p.exitRequests + 1⟩
    else
      ⟨(tick i.oracle i.event ⟨p.st, p.status, p.queue ++ i.arrivals⟩).1.st,
       (tick i.oracle i.event ⟨p.st, p.status, p.queue ++ i.arrivals⟩).1.status,
       (tick i.oracle i.event ⟨p.st, p.status, p.queue ++ i.arrivals⟩).1.queue,
       true, p.deinits, p.exitRequests⟩
  else
    ⟨p.st, p.status, p.queue ++ i.arrivals, false, p.deinits, p.exitRequests⟩

/-- Run the driver over a sequence of iterations. -/
def driverRun {Msg W : Type} (p : Proc Msg) : List (TickInput Msg W) → Proc Msg
  | [] => p
  | i :: is => driverRun (driverStep p i) is

/-- The process right after `Verso::new`: status `None`, `Verso` alive, no
deinitialization and no exit request performed yet. -/
def initProc {Msg : Type} (st : ShutdownState) (queue : List Msg) : Proc Msg :=
  ⟨st, Status.None, queue, true, 0, 0⟩

/-- Modelled from the spec: one Window Registry operation (`window.rs` and
the multi-window registry are absent from `src/`; spec 4.1). -/
inductive RegOp where
  | insert (view : Nat)
  | remove (wid : Nat)
deriving DecidableEq, Repr

/-- Modelled from the spec: the Window Registry (spec 4.1, 3): entries map
a window-id to the content-view identifier bound to that window; `nextId`
is the source of fresh window-ids. -/
structure Registry where
  entries : List (Nat × Nat)
  nextId : Nat
deriving DecidableEq, Repr

/-- Modelled from the spec: `insert(window) -> window-id` adds a newly
created window (bound to `view`) under a fresh window-id. -/
def Registry.insert (r : Registry) (view : Nat) : Registry × Nat :=
  (⟨r.entries ++ [(r.nextId, view)], r.nextId + 1⟩, r.nextId)

/-- Modelled from the spec: `remove(window-id)` detaches and drops the
window. -/
def Registry.remove (r : Registry) (wid : Nat) : Registry :=
  ⟨r.entries.filter (fun e => e.1 != wid), r.nextId⟩

/-- Modelled from the spec: `lookup_by_view(content-view-identifier) ->
Option<window-id>`, a scan that returns the window owning the view. -/
def Registry.lookup_by_view (r : Registry) (view : Nat) : Option Nat :=
  (r.entries.find? (fun e => e.2 == view)).map Prod.fst

/-- The content-view identifiers currently bound in the registry. -/
def Registry.views (r : Registry) : List Nat :=
  r.entries.map Prod.snd

/-- Uniqueness invariant of the registry: no two entries share a live
content-view identifier. -/
def Registry.viewsUnique (r : Registry) : Prop :=
  r.views.Nodup

/-- Apply one registry operation. -/
def Registry.step (r : Registry) : RegOp → Registry
  | RegOp.insert v => (r.insert v).1
  | RegOp.remove w => r.remove w

/-- Apply a sequence of registry operations. -/
def Registry.runOps (r : Registry) : List RegOp → Registry
  | [] => r
  | op :: ops => (r.step op).runOps ops

/-- Check that every inserted view identifier is globally fresh at its
insertion time (the spec: content-view identifiers are opaque, globally
unique tokens minted by the engine, never reused). -/
def freshViews : Registry → List RegOp → Bool
  | _, [] => true
  | r, RegOp.insert v :: ops =>
    !(r.views.contains v) && freshViews (r.step (RegOp.insert v)) ops
  | r, RegOp.remove w :: ops => freshViews (r.step (RegOp.remove w)) ops

/-! Helper lemmas about the drain loop and the tick trace. -/

theorem drainEmbedder_finished {Msg W : Type} (O : Oracle Msg W) (msgs : List Msg)
    (status : Status) :
    drainEmbedder O msgs ShutdownState.FinishedShuttingDown status =
      (ShutdownState.FinishedShuttingDown, status, msgs.map Act.errorAfterShutdown) := by
  induction msgs with
  | nil => rfl
  | cons m rest ih => simp [drainEmbedder, ih]

theorem drainEmbedder_shutting {Msg W : Type} (O : Oracle Msg W) (msgs : List Msg)
    (status : Status) :
    drainEmbedder O msgs ShutdownState.ShuttingDown status =
      (ShutdownState.ShuttingDown, status, msgs.map Act.dropShuttingDown) := by
  induction msgs with
  | nil => rfl
  | cons m rest ih => simp [drainEmbedder, ih]

theorem drain_trace_kinds {Msg W : Type} (O : Oracle Msg W) (msgs : List Msg)
    (st : ShutdownState) (status : Status) :
    ∀ a ∈ (drainEmbedder O msgs st status).2.2,
      (∃ m b, a = Act.dispatch m b) ∨ (∃ m, a = Act.dropShuttingDown m) ∨
      (∃ m, a = Act.errorAfterShutdown m) := by
  induction msgs generalizing st status with
  | nil => intro a ha; simp [drainEmbedder] at ha
  | cons m rest ih =>
    intro a ha
    cases st <;> simp only [drainEmbedder, List.mem_cons] at ha <;>
      rcases ha with h | h
    · exact Or.inl ⟨m, _, h⟩
    · exact ih _ _ _ h
    · exact Or.inr (Or.inl ⟨m, h⟩)
    · exact ih _ _ _ h
    · exact Or.inr (Or.inr ⟨m, h⟩)
    · exact ih _ _ _ h

theorem drainedOf_drain {Msg W : Type} (O : Oracle Msg W) (msgs : List Msg)
    (st : ShutdownState) (status : Status) :
    drainedOf (drainEmbedder O msgs st status).2.2 = msgs := by
  induction msgs generalizing st status with
  | nil => cases st <;> rfl
  | cons m rest ih =>
    cases st <;> simp [drainEmbedder, drainedOf, List.filterMap_cons] <;>
      exact ih _ _

theorem dispatchedOf_append {Msg : Type} (t1 t2 : List (Act Msg)) :
    dispatchedOf (t1 ++ t2) = dispatchedOf t1 ++ dispatchedOf t2 :=
  List.filterMap_append t1 t2 _

theorem drainedOf_append {Msg : Type} (t1 t2 : List (Act Msg)) :
    drainedOf (t1 ++ t2) = drainedOf t1 ++ drainedOf t2 :=
  List.filterMap_append t1 t2 _

theorem erroredOf_append {Msg : Type} (t1 t2 : List (Act Msg)) :
    erroredOf (t1 ++ t2) = erroredOf t1 ++ erroredOf t2 :=
  List.filterMap_append t1 t2 _

theorem hsm_trace {Msg W : Type} (O : Oracle Msg W) (s : VersoState Msg) :
    (handle_servo_messages O s).2 =
      Act.compositorRecv (O.recv s.st).1 ::
        (if (O.recv s.st).1 then (drainEmbedder O s.queue (O.recv s.st).2 s.status).2.2
         else []) := by
  unfold handle_servo_messages
  cases h : (O.recv s.st).1 <;> simp [h]

theorem hsm2_trace {Msg W : Type} (O : Oracle Msg W) (s : VersoState Msg) :
    (handle_servo_messages2 O s).2 =
      [if s.st ≠ ShutdownState.FinishedShuttingDown then Act.performUpdates
       else Act.maybeStartShuttingDown] := by
  unfold handle_servo_messages2
  split <;> simp_all

theorem tick_trace_eq {Msg W : Type} (O : Oracle Msg W) (ev : WinitEvent W)
    (s : VersoState Msg) :
    (tick O ev s).2 =
      (handle_servo_messages O s).2 ++ [Act.winitHandled] ++
        (handle_servo_messages2 O
          (handle_winit_event O ev (handle_servo_messages O s).1)).2 := rfl

theorem tick_state_eq {Msg W : Type} (O : Oracle Msg W) (ev : WinitEvent W)
    (s : VersoState Msg) :
    (tick O ev s).1 =
      (handle_servo_messages2 O
        (handle_winit_event O ev (handle_servo_messages O s).1)).1 := rfl

theorem dispatchedOf_nil {Msg : Type} : dispatchedOf ([] : List (Act Msg)) = [] := rfl

theorem drainedOf_nil {Msg : Type} : drainedOf ([] : List (Act Msg)) = [] := rfl

theorem erroredOf_nil {Msg : Type} : erroredOf ([] : List (Act Msg)) = [] := rfl

theorem dispatchedOf_cons_recv {Msg : Type} (g : Bool) (tr : List (Act Msg)) :
    dispatchedOf (Act.compositorRecv g :: tr) = dispatchedOf tr := rfl

theorem drainedOf_cons_recv {Msg : Type} (g : Bool) (tr : List (Act Msg)) :
    drainedOf (Act.compositorRecv g :: tr) = drainedOf tr := rfl

theorem erroredOf_cons_recv {Msg : Type} (g : Bool) (tr : List (Act Msg)) :
    erroredOf (Act.compositorRecv g :: tr) = erroredOf tr := rfl

theorem dispatchedOf_cons_winit {Msg : Type} (tr : List (Act Msg)) :
    dispatchedOf (Act.winitHandled :: tr) = dispatchedOf tr := rfl

theorem dispatchedOf_cons_maybeStart {Msg : Type} (tr : List (Act Msg)) :
    dispatchedOf (Act.maybeStartShuttingDown :: tr) = dispatchedOf tr := rfl

theorem dispatchedOf_cons_updates {Msg : Type} (tr : List (Act Msg)) :
    dispatchedOf (Act.performUpdates :: tr) = dispatchedOf tr := rfl

theorem drainedOf_cons_winit {Msg : Type} (tr : List (Act Msg)) :
    drainedOf (Act.winitHandled :: tr) = drainedOf tr := rfl

theorem drainedOf_cons_maybeStart {Msg : Type} (tr : List (Act Msg)) :
    drainedOf (Act.maybeStartShuttingDown :: tr) = drainedOf tr := rfl

theorem drainedOf_cons_updates {Msg : Type} (tr : List (Act Msg)) :
    drainedOf (Act.performUpdates :: tr) = drainedOf tr := rfl

theorem erroredOf_cons_winit {Msg : Type} (tr : List (Act Msg)) :
    erroredOf (Act.winitHandled :: tr) = erroredOf tr := rfl

theorem erroredOf_cons_maybeStart {Msg : Type} (tr : List (Act Msg)) :
    erroredOf (Act.maybeStartShuttingDown :: tr) = erroredOf tr := rfl

theorem erroredOf_cons_updates {Msg : Type} (tr : List (Act Msg)) :
    erroredOf (Act.performUpdates :: tr) = erroredOf tr := rfl

theorem dispatchedOf_errors {Msg : Type} (q : List Msg) :
    dispatchedOf (q.map Act.errorAfterShutdown) = [] := by
  induction q with
  | nil => rfl
  | cons m rest ih => simp [dispatchedOf, List.filterMap_cons]

theorem erroredOf_errors {Msg : Type} (q : List Msg) :
    erroredOf (q.map Act.errorAfterShutdown) = q := by
  induction q with
  | nil => rfl
  | cons m rest ih => simp [erroredOf, List.filterMap_cons] at ih ⊢; exact ih

theorem drainedOf_errors {Msg : Type} (q : List Msg) :
    drainedOf (q.map Act.errorAfterShutdown) = q := by
  induction q with
  | nil => rfl
  | cons m rest ih => simp [drainedOf, List.filterMap_cons] at ih ⊢; exact ih

theorem hsm_finished {Msg W : Type} (O : Oracle Msg W) (s : VersoState Msg)
    (h1 : (O.recv ShutdownState.FinishedShuttingDown).2 =
            ShutdownState.FinishedShuttingDown)
    (hst : s.st = ShutdownState.FinishedShuttingDown) :
    (handle_servo_messages O s).1.st = ShutdownState.FinishedShuttingDown ∧
    (handle_servo_messages O s).1.status = s.status ∧
    (handle_servo_messages O s).2 =
      Act.compositorRecv (O.recv s.st).1 ::
        (if (O.recv s.st).1 then s.queue.map Act.errorAfterShutdown else []) := by
  cases hr : (O.recv s.st).1 <;>
    simp_all [handle_servo_messages, drainEmbedder_finished]

theorem hwinit_finished {Msg W : Type} (O : Oracle Msg W) (ev : WinitEvent W)
    (s : VersoState Msg)
    (h2 : ∀ e, O.winit e ShutdownState.FinishedShuttingDown =
            ShutdownState.FinishedShuttingDown)
    (hst : s.st = ShutdownState.FinishedShuttingDown) :
    (handle_winit_event O ev s).st = ShutdownState.FinishedShuttingDown ∧
    (handle_winit_event O ev s).queue = s.queue := by
  cases ev <;> simp [handle_winit_event, hst, h2]

theorem hsm2_finished {Msg W : Type} (O : Oracle Msg W) (s : VersoState Msg)
    (h3 : O.maybeStart ShutdownState.FinishedShuttingDown =
            ShutdownState.FinishedShuttingDown)
    (hst : s.st = ShutdownState.FinishedShuttingDown) :
    (handle_servo_messages2 O s).1.st = ShutdownState.FinishedShuttingDown ∧
    (handle_servo_messages2 O s).2 = [Act.maybeStartShuttingDown] := by
  simp [handle_servo_messages2, hst, h3]

theorem tick_finished {Msg W : Type} (O : Oracle Msg W) (ev : WinitEvent W)
    (s : VersoState Msg) (habs : O.Absorbing)
    (hst : s.st = ShutdownState.FinishedShuttingDown) :
    (tick O ev s).1.st = ShutdownState.FinishedShuttingDown ∧
    dispatchedOf (tick O ev s).2 = [] ∧
    erroredOf (tick O ev s).2 = drainedOf (tick O ev s).2 := by
  obtain ⟨h1, h2, h3⟩ := habs
  obtain ⟨ha1, ha2, ha3⟩ := hsm_finished O s h1 hst
  obtain ⟨hb1, hb2⟩ :=
    hwinit_finished O ev (handle_servo_messages O s).1 h2 ha1
  obtain ⟨hc1, hc2⟩ :=
    hsm2_finished O (handle_winit_event O ev (handle_servo_messages O s).1) h3 hb1
  refine ⟨?_, ?_, ?_⟩
  · rw [tick_state_eq]; exact hc1
  · rw [tick_trace_eq, ha3, hc2]
    cases hr : (O.recv s.st).1 <;>
      simp [hr, dispatchedOf_append, dispatchedOf_cons_recv, dispatchedOf_nil,
        dispatchedOf_cons_winit, dispatchedOf_cons_maybeStart, dispatchedOf_errors]
  · rw [tick_trace_eq, ha3, hc2]
    cases hr : (O.recv s.st).1 <;>
      simp [hr, erroredOf_append, drainedOf_append, erroredOf_cons_recv,
        drainedOf_cons_recv, erroredOf_cons_winit, drainedOf_cons_winit,
        erroredOf_cons_maybeStart, drainedOf_cons_maybeStart, erroredOf_errors,
        drainedOf_errors, erroredOf_nil, drainedOf_nil]

/-- C1: for every sequence of ticks and every interleaving of compositor
and embedder messages — oracles whose compositor-side transitions never
leave the terminal state, per the spec's monotonicity of the shutdown
state machine — once the shutdown state has reached
`FinishedShuttingDown`, no run-loop tick dispatches an embedder message to
the window handler; every embedder message removed from the channel in
that state is logged as an error and dropped, and the state stays
terminal.  The tick function is total, so processing such a message cannot
crash. -/
theorem C1_no_dispatch_after_finished {Msg W : Type}
    (inputs : List (TickInput Msg W)) (s : VersoState Msg)
    (habs : ∀ i ∈ inputs, i.oracle.Absorbing)
    (hst : s.st = ShutdownState.FinishedShuttingDown) :
    (ticksRun s inputs).1.st = ShutdownState.FinishedShuttingDown ∧
    ∀ tr ∈ (ticksRun s inputs).2,
      dispatchedOf tr = [] ∧ erroredOf tr = drainedOf tr := by
  induction inputs generalizing s with
  | nil => exact ⟨hst, by intro tr h; simp [ticksRun] at h⟩
  | cons i is ih =>
    have hi := habs i (List.mem_cons_self i is)
    have hrest : ∀ j ∈ is, j.oracle.Absorbing :=
      fun j hj => habs j (List.mem_cons_of_mem i hj)
    obtain ⟨h1, h2, h3⟩ :=
      tick_finished i.oracle i.event ⟨s.st, s.status, s.queue ++ i.arrivals⟩ hi hst
    obtain ⟨hr1, hr2⟩ :=
      ih (tick i.oracle i.event ⟨s.st, s.status, s.queue ++ i.arrivals⟩).1 hrest h1
    refine ⟨by simpa [ticksRun] using hr1, ?_⟩
    intro tr htr
    simp only [ticksRun, List.mem_cons] at htr
    rcases htr with h | h
    · exact h ▸ ⟨h2, h3⟩
    · exact hr2 tr h

/-- Witness for C1: one tick at the terminal state with one queued message
and one arriving message; the hypotheses are discharged at this input. -/
theorem C1_no_dispatch_after_finished_witness :
    (ticksRun (VersoState.mk ShutdownState.FinishedShuttingDown Status.None [5])
        [TickInput.mk
          (Oracle.mk (fun st => (true, st)) (fun (_ : Nat) st => (false, st))
            (fun (_ : Nat) st => st) (fun st => st) (fun st => st) false)
          WinitEvent.Resumed [7]]).1.st = ShutdownState.FinishedShuttingDown ∧
    ∀ tr ∈ (ticksRun (VersoState.mk ShutdownState.FinishedShuttingDown Status.None [5])
        [TickInput.mk
          (Oracle.mk (fun st => (true, st)) (fun (_ : Nat) st => (false, st))
            (fun (_ : Nat) st => st) (fun st => st) (fun st => st) false)
          WinitEvent.Resumed [7]]).2,
      dispatchedOf tr = [] ∧ erroredOf tr = drainedOf tr :=
  C1_no_dispatch_after_finished _ _
    (fun i hi => by
      simp only [List.mem_singleton] at hi
      subst hi
      exact ⟨rfl, fun e => rfl, rfl⟩)
    rfl

theorem drain_no_recv {Msg W : Type} (O : Oracle Msg W) (msgs : List Msg)
    (st : ShutdownState) (status : Status) (g : Bool) :
    Act.compositorRecv g ∉ (drainEmbedder O msgs st status).2.2 := by
  intro h
  rcases drain_trace_kinds O msgs st status _ h with ⟨m, b, he⟩ | ⟨m, he⟩ | ⟨m, he⟩ <;>
    simp at he

theorem drainedOf_hsm2 {Msg W : Type} (O : Oracle Msg W) (s : VersoState Msg) :
    drainedOf (handle_servo_messages2 O s).2 = [] := by
  rw [hsm2_trace]; split <;> rfl

theorem dispatchedOf_hsm2 {Msg W : Type} (O : Oracle Msg W) (s : VersoState Msg) :
    dispatchedOf (handle_servo_messages2 O s).2 = [] := by
  rw [hsm2_trace]; split <;> rfl

theorem erroredOf_hsm2 {Msg W : Type} (O : Oracle Msg W) (s : VersoState Msg) :
    erroredOf (handle_servo_messages2 O s).2 = [] := by
  rw [hsm2_trace]; split <;> rfl

theorem hwinit_queue {Msg W : Type} (O : Oracle Msg W) (ev : WinitEvent W)
    (s : VersoState Msg) :
    (handle_winit_event O ev s).queue = s.queue := by
  cases ev <;> rfl

theorem hsm2_queue {Msg W : Type} (O : Oracle Msg W) (s : VersoState Msg) :
    (handle_servo_messages2 O s).1.queue = s.queue := rfl

theorem hsm2_status {Msg W : Type} (O : Oracle Msg W) (s : VersoState Msg) :
    (handle_servo_messages2 O s).1.status =
      (if s.status = Status.Shutdown then Status.Shutdown
       else if O.animating then Status.Animating else Status.None) := by
  unfold handle_servo_messages2
  by_cases h : s.status = Status.Shutdown <;> simp [h]

/-- C4: within every tick, the call that drains the compositor message
channel (`compositor.receive_messages()`) is the first action of the tick:
every other action of the trace — in particular every embedder-message
dispatch — occurs strictly after it, and it occurs exactly once. -/
theorem C4_compositor_before_embedder {Msg W : Type} (O : Oracle Msg W)
    (ev : WinitEvent W) (s : VersoState Msg) :
    ∃ rest, (tick O ev s).2 = Act.compositorRecv (O.recv s.st).1 :: rest ∧
      ∀ g, Act.compositorRecv g ∉ rest := by
  refine ⟨(if (O.recv s.st).1 then
      (drainEmbedder O s.queue (O.recv s.st).2 s.status).2.2 else []) ++
      [Act.winitHandled] ++
      (handle_servo_messages2 O
        (handle_winit_event O ev (handle_servo_messages O s).1)).2, ?_, ?_⟩
  · rw [tick_trace_eq, hsm_trace]; simp
  · intro g hg
    rw [hsm2_trace] at hg
    simp only [List.mem_append] at hg
    rcases hg with (hg | hg) | hg
    · split at hg
      · exact drain_no_recv O _ _ _ g hg
      · simp at hg
    · simp at hg
    · simp only [List.mem_singleton] at hg
      split at hg <;> simp at hg

/-- C6: in a tick where `compositor.receive_messages()` reports no
messages, the embedder channel is untouched: the queue is unchanged and no
embedder message is removed from it, dispatched, or dropped. -/
theorem C6_no_recv_leaves_queue {Msg W : Type} (O : Oracle Msg W)
    (ev : WinitEvent W) (s : VersoState Msg)
    (h : (O.recv s.st).1 = false) :
    (tick O ev s).1.queue = s.queue ∧ drainedOf (tick O ev s).2 = [] ∧
    dispatchedOf (tick O ev s).2 = [] := by
  have hq : (handle_servo_messages O s).1 =
      ⟨(O.recv s.st).2, s.status, s.queue⟩ := by
    simp [handle_servo_messages, h]
  refine ⟨?_, ?_, ?_⟩
  · rw [tick_state_eq, hsm2_queue, hwinit_queue, hq]
  · rw [tick_trace_eq, drainedOf_append, drainedOf_append, drainedOf_hsm2,
      hsm_trace, h]
    simp [drainedOf_cons_recv, drainedOf_nil, drainedOf_cons_winit]
  · rw [tick_trace_eq, dispatchedOf_append, dispatchedOf_append,
      dispatchedOf_hsm2, hsm_trace, h]
    simp [dispatchedOf_cons_recv, dispatchedOf_nil, dispatchedOf_cons_winit]

/-- Witness for C6: a tick whose compositor reports no received messages
leaves the single queued message in place. -/
theorem C6_no_recv_leaves_queue_witness :
    (tick (Oracle.mk (fun st => (false, st)) (fun (_ : Nat) st => (false, st))
        (fun (_ : Nat) st => st) (fun st => st) (fun st => st) false)
      WinitEvent.Resumed
      (VersoState.mk ShutdownState.NotShuttingDown Status.None [3])).1.queue = [3] ∧
    drainedOf (tick (Oracle.mk (fun st => (false, st)) (fun (_ : Nat) st => (false, st))
        (fun (_ : Nat) st => st) (fun st => st) (fun st => st) false)
      WinitEvent.Resumed
      (VersoState.mk ShutdownState.NotShuttingDown Status.None [3])).2 = [] ∧
    dispatchedOf (tick (Oracle.mk (fun st => (false, st)) (fun (_ : Nat) st => (false, st))
        (fun (_ : Nat) st => st) (fun st => st) (fun st => st) false)
      WinitEvent.Resumed
      (VersoState.mk ShutdownState.NotShuttingDown Status.None [3])).2 = [] :=
  C6_no_recv_leaves_queue _ _ _ rfl

/-- C7: the status `Verso::run` returns is `Shutdown` exactly when the
status after the message-handling phases is `Shutdown` (a shutdown noted
earlier in the tick is never overwritten by the scheduling step);
otherwise it is `Animating` when the window reports an active animation
and `None` when it does not. -/
theorem C7_scheduling_status {Msg W : Type} (O : Oracle Msg W)
    (ev : WinitEvent W) (s : VersoState Msg) :
    (tick O ev s).1.status =
      (if (handle_winit_event O ev (handle_servo_messages O s).1).status =
            Status.Shutdown
       then Status.Shutdown
       else if O.animating then Status.Animating else Status.None) := by
  rw [tick_state_eq, hsm2_status]

theorem dispatchedOf_drops {Msg : Type} (q : List Msg) :
    dispatchedOf (q.map Act.dropShuttingDown) = [] := by
  induction q with
  | nil => rfl
  | cons m rest ih => simp [dispatchedOf, List.filterMap_cons]

theorem erroredOf_drops {Msg : Type} (q : List Msg) :
    erroredOf (q.map Act.dropShuttingDown) = [] := by
  induction q with
  | nil => rfl
  | cons m rest ih => simp [erroredOf, List.filterMap_cons]

theorem drainedOf_drops {Msg : Type} (q : List Msg) :
    drainedOf (q.map Act.dropShuttingDown) = q := by
  induction q with
  | nil => rfl
  | cons m rest ih => simp [drainedOf, List.filterMap_cons] at ih ⊢; exact ih

/-- C3 counterexample: shutdown state `ShuttingDown`, the compositor
reports received messages, one embedder message queued.  The tick removes
the message from the channel without dispatching it, so the channel does
NOT retain undelivered messages as the claim states. -/
theorem C3_counterexample :
    (tick (Oracle.mk (fun st => (true, st)) (fun (_ : Nat) st => (false, st))
        (fun (_ : Nat) st => st) (fun st => st) (fun st => st) false)
      WinitEvent.Resumed
      (VersoState.mk ShutdownState.ShuttingDown Status.None [0])).1.queue = [] ∧
    dispatchedOf (tick (Oracle.mk (fun st => (true, st))
        (fun (_ : Nat) st => (false, st))
        (fun (_ : Nat) st => st) (fun st => st) (fun st => st) false)
      WinitEvent.Resumed
      (VersoState.mk ShutdownState.ShuttingDown Status.None [0])).2 = [] ∧
    (tick (Oracle.mk (fun st => (true, st)) (fun (_ : Nat) st => (false, st))
        (fun (_ : Nat) st => st) (fun st => st) (fun st => st) false)
      WinitEvent.Resumed
      (VersoState.mk ShutdownState.ShuttingDown Status.None [0])).1.queue ≠ [0] := by
  decide

/-- C3 (amended): whenever the compositor reports received messages the
tick drains the embedder channel completely, regardless of shutdown state;
a message popped while `ShuttingDown` is silently dropped and one popped
while `FinishedShuttingDown` is error-logged and dropped — in neither
state is any message dispatched or left in the channel. -/
theorem C3_drain_removes_regardless {Msg W : Type} (O : Oracle Msg W)
    (ev : WinitEvent W) (s : VersoState Msg)
    (h : (O.recv s.st).1 = true) :
    (tick O ev s).1.queue = [] ∧
    drainedOf (tick O ev s).2 = s.queue ∧
    ((O.recv s.st).2 = ShutdownState.ShuttingDown →
      dispatchedOf (tick O ev s).2 = [] ∧ erroredOf (tick O ev s).2 = []) ∧
    ((O.recv s.st).2 = ShutdownState.FinishedShuttingDown →
      dispatchedOf (tick O ev s).2 = [] ∧
      erroredOf (tick O ev s).2 = s.queue) := by
  have hq : (handle_servo_messages O s).1 =
      ⟨(drainEmbedder O s.queue (O.recv s.st).2 s.status).1,
       (drainEmbedder O s.queue (O.recv s.st).2 s.status).2.1, []⟩ := by
    simp [handle_servo_messages, h]
  have htr : (tick O ev s).2 =
      (Act.compositorRecv true ::
        (drainEmbedder O s.queue (O.recv s.st).2 s.status).2.2) ++
      [Act.winitHandled] ++
      (handle_servo_messages2 O
        (handle_winit_event O ev (handle_servo_messages O s).1)).2 := by
    rw [tick_trace_eq, hsm_trace, h]; simp [h]
  refine ⟨?_, ?_, ?_, ?_⟩
  · rw [tick_state_eq, hsm2_queue, hwinit_queue, hq]
  · rw [htr]
    simp [drainedOf_append, drainedOf_cons_recv, drainedOf_cons_winit,
      drainedOf_nil, drainedOf_drain, drainedOf_hsm2]
  · intro h2
    rw [htr, h2, drainEmbedder_shutting]
    constructor
    · simp [dispatchedOf_append, dispatchedOf_cons_recv, dispatchedOf_cons_winit,
        dispatchedOf_nil, dispatchedOf_drops, dispatchedOf_hsm2]
    · simp [erroredOf_append, erroredOf_cons_recv, erroredOf_cons_winit,
        erroredOf_nil, erroredOf_drops, erroredOf_hsm2]
  · intro h2
    rw [htr, h2, drainEmbedder_finished]
    constructor
    · simp [dispatchedOf_append, dispatchedOf_cons_recv, dispatchedOf_cons_winit,
        dispatchedOf_nil, dispatchedOf_errors, dispatchedOf_hsm2]
    · simp [erroredOf_append, erroredOf_cons_recv, erroredOf_cons_winit,
        erroredOf_nil, erroredOf_errors, erroredOf_hsm2]

/-- Witness for the amended C3: a tick in `ShuttingDown` with one queued
message empties the channel, dispatching and error-logging nothing. -/
theorem C3_drain_removes_regardless_witness :
    (tick (Oracle.mk (fun st => (true, st)) (fun (_ : Nat) st => (false, st))
        (fun (_ : Nat) st => st) (fun st => st) (fun st => st) false)
      WinitEvent.Resumed
      (VersoState.mk ShutdownState.ShuttingDown Status.None [4])).1.queue = [] ∧
    drainedOf (tick (Oracle.mk (fun st => (true, st))
        (fun (_ : Nat) st => (false, st))
        (fun (_ : Nat) st => st) (fun st => st) (fun st => st) false)
      WinitEvent.Resumed
      (VersoState.mk ShutdownState.ShuttingDown Status.None [4])).2 = [4] ∧
    (((Oracle.mk (fun st => (true, st)) (fun (_ : Nat) st => (false, st))
        (fun (_ : Nat) st => st) (fun st => st) (fun st => st) false :
          Oracle Nat Nat).recv
        (VersoState.mk ShutdownState.ShuttingDown Status.None [4]).st).2 =
          ShutdownState.ShuttingDown →
      dispatchedOf (tick (Oracle.mk (fun st => (true, st))
          (fun (_ : Nat) st => (false, st))
          (fun (_ : Nat) st => st) (fun st => st) (fun st => st) false)
        WinitEvent.Resumed
        (VersoState.mk ShutdownState.ShuttingDown Status.None [4])).2 = [] ∧
      erroredOf (tick (Oracle.mk (fun st => (true, st))
          (fun (_ : Nat) st => (false, st))
          (fun (_ : Nat) st => st) (fun st => st) (fun st => st) false)
        WinitEvent.Resumed
        (VersoState.mk ShutdownState.ShuttingDown Status.None [4])).2 = []) ∧
    (((Oracle.mk (fun st => (true, st)) (fun (_ : Nat) st => (false, st))
        (fun (_ : Nat) st => st) (fun st => st) (fun st => st) false :
          Oracle Nat Nat).recv
        (VersoState.mk ShutdownState.ShuttingDown Status.None [4]).st).2 =
          ShutdownState.FinishedShuttingDown →
      dispatchedOf (tick (Oracle.mk (fun st => (true, st))
          (fun (_ : Nat) st => (false, st))
          (fun (_ : Nat) st => st) (fun st => st) (fun st => st) false)
        WinitEvent.Resumed
        (VersoState.mk ShutdownState.ShuttingDown Status.None [4])).2 = [] ∧
      erroredOf (tick (Oracle.mk (fun st => (true, st))
          (fun (_ : Nat) st => (false, st))
          (fun (_ : Nat) st => st) (fun st => st) (fun st => st) false)
        WinitEvent.Resumed
        (VersoState.mk ShutdownState.ShuttingDown Status.None [4])).2 = [4]) :=
  C3_drain_removes_regardless _ _ _ rfl

theorem drain_no_updates {Msg W : Type} (O : Oracle Msg W) (msgs : List Msg)
    (st : ShutdownState) (status : Status) :
    Act.performUpdates ∉ (drainEmbedder O msgs st status).2.2 := by
  intro h
  rcases drain_trace_kinds O msgs st status _ h with ⟨m, b, he⟩ | ⟨m, he⟩ | ⟨m, he⟩ <;>
    simp at he

theorem hsm2_st {Msg W : Type} (O : Oracle Msg W) (s : VersoState Msg) :
    (handle_servo_messages2 O s).1.st =
      (if s.st ≠ ShutdownState.FinishedShuttingDown then O.performUpdates s.st
       else O.maybeStart s.st) := by
  by_cases hc : s.st = ShutdownState.FinishedShuttingDown <;>
    simp [handle_servo_messages2, hc]

/-- C2: in every tick, after the message phases: when the shutdown state
is not `FinishedShuttingDown` the tick calls the compositor's per-tick
update pass; when it is `FinishedShuttingDown` the update pass is not
called (the in-`src/` code instead calls the compositor's no-op
`maybe_start_shutting_down`), and the spec-modelled native driver then
performs the one-time terminal deinitialization — consuming the `Verso` —
and requests the native loop to exit. -/
theorem C2_updates_or_deinit {Msg W : Type} (i : TickInput Msg W) (p : Proc Msg)
    (halive : p.alive = true)
    (habs : i.oracle.maybeStart ShutdownState.FinishedShuttingDown =
      ShutdownState.FinishedShuttingDown) :
    ((handle_winit_event i.oracle i.event
        (handle_servo_messages i.oracle
          ⟨p.st, p.status, p.queue ++ i.arrivals⟩).1).st ≠
        ShutdownState.FinishedShuttingDown →
      Act.performUpdates ∈
        (tick i.oracle i.event ⟨p.st, p.status, p.queue ++ i.arrivals⟩).2) ∧
    ((handle_winit_event i.oracle i.event
        (handle_servo_messages i.oracle
          ⟨p.st, p.status, p.queue ++ i.arrivals⟩).1).st =
        ShutdownState.FinishedShuttingDown →
      Act.performUpdates ∉
        (tick i.oracle i.event ⟨p.st, p.status, p.queue ++ i.arrivals⟩).2 ∧
      Act.maybeStartShuttingDown ∈
        (tick i.oracle i.event ⟨p.st, p.status, p.queue ++ i.arrivals⟩).2 ∧
      (driverStep p i).deinits = p.deinits + 1 ∧
      (driverStep p i).exitRequests = p.exitRequests + 1 ∧
      (driverStep p i).alive = false) := by
  constructor
  · intro hmid
    rw [tick_trace_eq, hsm2_trace]
    simp [hmid]
  · intro hmid
    have hst2 : (tick i.oracle i.event
        ⟨p.st, p.status, p.queue ++ i.arrivals⟩).1.st =
        ShutdownState.FinishedShuttingDown := by
      rw [tick_state_eq, hsm2_st, if_neg (by simp [hmid]), hmid, habs]
    refine ⟨?_, ?_, ?_, ?_, ?_⟩
    · rw [tick_trace_eq, hsm_trace, hsm2_trace]
      intro hmem
      simp only [List.mem_append, List.mem_cons, List.mem_singleton] at hmem
      rcases hmem with ((hmem | hmem) | hmem) | hmem
      · exact absurd hmem (by simp)
      · split at hmem
        · exact drain_no_updates _ _ _ _ hmem
        · simp at hmem
      · simp at hmem
      · rw [if_neg (by simp [hmid])] at hmem; simp at hmem
    · rw [tick_trace_eq, hsm2_trace]
      simp [hmid]
    · simp [driverStep, halive, hst2]
    · simp [driverStep, halive, hst2]
    · simp [driverStep, halive, hst2]

/-- Witness for C2: a tick entering at the terminal state calls no update
pass; the driver deinitializes once and requests exit. -/
theorem C2_updates_or_deinit_witness :
    ((handle_winit_event
        (Oracle.mk (fun st => (false, st)) (fun (_ : Nat) st => (false, st))
          (fun (_ : Nat) st => st) (fun st => st) (fun st => st) false)
        WinitEvent.Resumed
        (handle_servo_messages
          (Oracle.mk (fun st => (false, st)) (fun (_ : Nat) st => (false, st))
            (fun (_ : Nat) st => st) (fun st => st) (fun st => st) false)
          ⟨ShutdownState.FinishedShuttingDown, Status.None,
            ([] : List Nat) ++ []⟩).1).st ≠
        ShutdownState.FinishedShuttingDown →
      Act.performUpdates ∈
        (tick
          (Oracle.mk (fun st => (false, st)) (fun (_ : Nat) st => (false, st))
            (fun (_ : Nat) st => st) (fun st => st) (fun st => st) false)
          WinitEvent.Resumed
          ⟨ShutdownState.FinishedShuttingDown, Status.None,
            ([] : List Nat) ++ []⟩).2) ∧
    ((handle_winit_event
        (Oracle.mk (fun st => (false, st)) (fun (_ : Nat) st => (false, st))
          (fun (_ : Nat) st => st) (fun st => st) (fun st => st) false)
        WinitEvent.Resumed
        (handle_servo_messages
          (Oracle.mk (fun st => (false, st)) (fun (_ : Nat) st => (false, st))
            (fun (_ : Nat) st => st) (fun st => st) (fun st => st) false)
          ⟨ShutdownState.FinishedShuttingDown, Status.None,
            ([] : List Nat) ++ []⟩).1).st =
        ShutdownState.FinishedShuttingDown →
      Act.performUpdates ∉
        (tick
          (Oracle.mk (fun st => (false, st)) (fun (_ : Nat) st => (false, st))
            (fun (_ : Nat) st => st) (fun st => st) (fun st => st) false)
          WinitEvent.Resumed
          ⟨ShutdownState.FinishedShuttingDown, Status.None,
            ([] : List Nat) ++ []⟩).2 ∧
      Act.maybeStartShuttingDown ∈
        (tick
          (Oracle.mk (fun st => (false, st)) (fun (_ : Nat) st => (false, st))
            (fun (_ : Nat) st => st) (fun st => st) (fun st => st) false)
          WinitEvent.Resumed
          ⟨ShutdownState.FinishedShuttingDown, Status.None,
            ([] : List Nat) ++ []⟩).2 ∧
      (driverStep
        (Proc.mk ShutdownState.FinishedShuttingDown Status.None [] true 0 0)
        (TickInput.mk
          (Oracle.mk (fun st => (false, st)) (fun (_ : Nat) st => (false, st))
            (fun (_ : Nat) st => st) (fun st => st) (fun st => st) false)
          WinitEvent.Resumed [])).deinits =
        (Proc.mk ShutdownState.FinishedShuttingDown Status.None
          ([] : List Nat) true 0 0).deinits + 1 ∧
      (driverStep
        (Proc.mk ShutdownState.FinishedShuttingDown Status.None [] true 0 0)
        (TickInput.mk
          (Oracle.mk (fun st => (false, st)) (fun (_ : Nat) st => (false, st))
            (fun (_ : Nat) st => st) (fun st => st) (fun st => st) false)
          WinitEvent.Resumed [])).exitRequests =
        (Proc.mk ShutdownState.FinishedShuttingDown Status.None
          ([] : List Nat) true 0 0).exitRequests + 1 ∧
      (driverStep
        (Proc.mk ShutdownState.FinishedShuttingDown Status.None [] true 0 0)
        (TickInput.mk
          (Oracle.mk (fun st => (false, st)) (fun (_ : Nat) st => (false, st))
            (fun (_ : Nat) st => st) (fun st => st) (fun st => st) false)
          WinitEvent.Resumed [])).alive = false) :=
  C2_updates_or_deinit
    (TickInput.mk
      (Oracle.mk (fun st => (false, st)) (fun (_ : Nat) st => (false, st))
        (fun (_ : Nat) st => st) (fun st => st) (fun st => st) false)
      WinitEvent.Resumed [])
    (Proc.mk ShutdownState.FinishedShuttingDown Status.None [] true 0 0)
    rfl rfl

theorem driverStep_deinits {Msg W : Type} (p : Proc Msg) (i : TickInput Msg W) :
    ((driverStep p i).deinits = p.deinits ∧ (driverStep p i).alive = p.alive) ∨
    (p.alive = true ∧ (driverStep p i).deinits = p.deinits + 1 ∧
      (driverStep p i).alive = false) := by
  cases hb : p.alive with
  | false =>
    rw [driverStep, if_neg (by simp [hb])]
    exact Or.inl ⟨rfl, rfl⟩
  | true =>
    rw [driverStep, if_pos (by simp [hb])]
    split
    · exact Or.inr ⟨rfl, rfl, rfl⟩
    · exact Or.inl ⟨rfl, rfl⟩

theorem driverRun_deinit_inv {Msg W : Type} (inputs : List (TickInput Msg W))
    (p : Proc Msg) (h : p.alive = true → p.deinits = 0) (hd : p.deinits ≤ 1) :
    (driverRun p inputs).deinits ≤ 1 := by
  induction inputs generalizing p with
  | nil => exact hd
  | cons i is ih =>
    rw [driverRun]
    rcases driverStep_deinits p i with ⟨h1, h2⟩ | ⟨h1, h2, h3⟩
    · exact ih (driverStep p i) (fun ha => h1 ▸ h (h2 ▸ ha)) (h1 ▸ hd)
    · refine ih (driverStep p i) (fun ha => absurd ha (by simp [h3])) ?_
      rw [h2, h h1]

/-- C5: starting from the freshly created process, for every sequence of
driver iterations (ticks and post-shutdown wake signals alike) the
terminal deinitialization runs at most once: `Verso::deinit` takes the
`Verso` by value, and the spec-modelled driver holds it as an optional
value that deinitialization consumes. -/
theorem C5_deinit_at_most_once {Msg W : Type} (st : ShutdownState)
    (queue : List Msg) (inputs : List (TickInput Msg W)) :
    (driverRun (initProc st queue) inputs).deinits ≤ 1 :=
  driverRun_deinit_inv inputs (initProc st queue) (fun _ => rfl) (Nat.zero_le 1)

/-- C8: `Waker::wake` returns normally for every delivery outcome — it is
a total function into its log output with no panic, blocking, or error
outcome of its own; a failed delivery is logged together with the error
and a successful delivery logs nothing. -/
theorem C8_wake_logs_failure (e : Nat) :
    wake (Except.error e) = [WakeLog.sendFailed e] ∧
    wake (Except.ok ()) = [] :=
  ⟨rfl, rfl⟩

/-- C9: `send_to_constellation` performs exactly one send attempt (no
retry); on failure it logs the command's variant name together with the
transport error and returns normally; on success it logs nothing.  Its
result type has no failure outcome, so nothing propagates to the
caller. -/
theorem C9_send_failure_logged {M V E : Type} (variant_name : M → V)
    (send : M → Except E Unit) (msg : M) :
    (send_to_constellation variant_name send msg).1 = 1 ∧
    (∀ e, send msg = Except.error e →
      (send_to_constellation variant_name send msg).2 =
        [(variant_name msg, e)]) ∧
    (send msg = Except.ok () →
      (send_to_constellation variant_name send msg).2 = []) := by
  refine ⟨?_, ?_, ?_⟩
  · unfold send_to_constellation
    cases send msg <;> rfl
  · intro e he
    unfold send_to_constellation
    rw [he]
  · intro he
    unfold send_to_constellation
    rw [he]

/-- Witness for C9 at a failing send with a concrete command. -/
theorem C9_send_failure_logged_witness :
    (send_to_constellation (fun m : Nat => m + 10)
      (fun _ : Nat => (Except.error 99 : Except Nat Unit)) 5).1 = 1 ∧
    (∀ e, (fun _ : Nat => (Except.error 99 : Except Nat Unit)) 5 =
        Except.error e →
      (send_to_constellation (fun m : Nat => m + 10)
        (fun _ : Nat => (Except.error 99 : Except Nat Unit)) 5).2 =
        [((fun m : Nat => m + 10) 5, e)]) ∧
    ((fun _ : Nat => (Except.error 99 : Except Nat Unit)) 5 = Except.ok () →
      (send_to_constellation (fun m : Nat => m + 10)
        (fun _ : Nat => (Except.error 99 : Except Nat Unit)) 5).2 = []) :=
  C9_send_failure_logged _ _ _

theorem views_insert (r : Registry) (v : Nat) :
    ((r.insert v).1).views = r.views ++ [v] := by
  simp [Registry.insert, Registry.views]

theorem views_remove_sublist (r : Registry) (w : Nat) :
    (r.remove w).views.Sublist r.views :=
  (List.filter_sublist r.entries).map Prod.snd

theorem runOps_viewsUnique (r : Registry) (ops : List RegOp)
    (h : r.viewsUnique) (hf : freshViews r ops = true) :
    (r.runOps ops).viewsUnique := by
  induction ops generalizing r with
  | nil => exact h
  | cons op ops ih =>
    rw [Registry.runOps]
    cases op with
    | insert v =>
      rw [freshViews, Bool.and_eq_true] at hf
      refine ih (r.step (RegOp.insert v)) ?_ hf.2
      have hv : v ∉ r.views := by simpa using hf.1
      show ((r.insert v).1).viewsUnique
      unfold Registry.viewsUnique
      rw [views_insert]
      simp [List.nodup_append, hv]
      exact h
    | remove w =>
      rw [freshViews] at hf
      exact ih _ (h.sublist (views_remove_sublist r w)) hf

theorem lookup_unique (r : Registry) (hu : r.viewsUnique) (v : Nat)
    (hv : v ∈ r.views) :
    ∃ w, r.lookup_by_view v = some w ∧ (w, v) ∈ r.entries ∧
      (r.entries.filter (fun e => e.2 == v)).length = 1 := by
  obtain ⟨l, n⟩ := r
  simp only [Registry.views, Registry.viewsUnique, Registry.lookup_by_view] at *
  induction l with
  | nil => simp at hv
  | cons e rest ih =>
    by_cases hev : e.2 = v
    · refine ⟨e.1, ?_, ?_, ?_⟩
      · simp [List.find?_cons, hev]
      · have hee : (e.1, v) = e := by rw [← hev]
        rw [hee]
        exact List.mem_cons_self e rest
      · have hvrest : v ∉ rest.map Prod.snd := by
          rw [List.map_cons] at hu
          have := (List.nodup_cons.mp hu).1
          rw [hev] at this
          exact this
        have hfil : rest.filter (fun e => e.2 == v) = [] := by
          rw [List.filter_eq_nil_iff]
          intro a ha hav
          exact hvrest (List.mem_map.mpr ⟨a, ha, by simpa using hav⟩)
        simp [List.filter_cons, hev, hfil]
    · have hu2 : (rest.map Prod.snd).Nodup := by
        rw [List.map_cons] at hu
        exact (List.nodup_cons.mp hu).2
      have hv2 : v ∈ rest.map Prod.snd := by
        rw [List.map_cons] at hv
        rcases List.mem_cons.mp hv with h | h
        · exact absurd h.symm hev
        · exact h
      obtain ⟨w, hw1, hw2, hw3⟩ := ih hu2 hv2
      refine ⟨w, ?_, List.mem_cons_of_mem e hw2, ?_⟩
      · simpa [List.find?_cons, hev] using hw1
      · simpa [List.filter_cons, hev] using hw3

/-- C10 (spec-modelled window registry): from any registry satisfying the
uniqueness invariant, after any sequence of insert and remove operations
whose inserted view identifiers are fresh (view identifiers are globally
unique tokens minted by the engine), the invariant still holds, and for
every view identifier present in the registry `lookup_by_view` returns
exactly one window-id — the id of the unique entry bound to that view. -/
theorem C10_lookup_unique (r : Registry) (ops : List RegOp)
    (hu : r.viewsUnique) (hf : freshViews r ops = true) :
    (r.runOps ops).viewsUnique ∧
    ∀ v ∈ (r.runOps ops).views,
      ∃ w, (r.runOps ops).lookup_by_view v = some w ∧
        (w, v) ∈ (r.runOps ops).entries ∧
        ((r.runOps ops).entries.filter (fun e => e.2 == v)).length = 1 := by
  have h2 := runOps_viewsUnique r ops hu hf
  exact ⟨h2, fun v hv => lookup_unique _ h2 v hv⟩

/-- Witness for C10: two inserts and a remove on the empty registry. -/
theorem C10_lookup_unique_witness :
    ((Registry.mk [] 0).runOps
        [RegOp.insert 5, RegOp.insert 6, RegOp.remove 0]).viewsUnique ∧
    ∀ v ∈ ((Registry.mk [] 0).runOps
        [RegOp.insert 5, RegOp.insert 6, RegOp.remove 0]).views,
      ∃ w, ((Registry.mk [] 0).runOps
          [RegOp.insert 5, RegOp.insert 6, RegOp.remove 0]).lookup_by_view v =
            some w ∧
        (w, v) ∈ ((Registry.mk [] 0).runOps
          [RegOp.insert 5, RegOp.insert 6, RegOp.remove 0]).entries ∧
        (((Registry.mk [] 0).runOps
          [RegOp.insert 5, RegOp.insert 6, RegOp.remove 0]).entries.filter
            (fun e => e.2 == v)).length = 1 :=
  C10_lookup_unique (Registry.mk [] 0)
    [RegOp.insert 5, RegOp.insert 6, RegOp.remove 0]
    List.nodup_nil (by decide)
